import Mathlib

/-!
Verification of the PRS member-resolution service (prsService.js and its
part_000 variant) against its specification.  The JavaScript string
pipeline, candidate-URL builder, probe scheduler, page validator and the
flat-format parser are shallowly embedded as executable Lean functions;
the HTTP fetch and the cheerio DOM extraction are external collaborators
and enter the model as function parameters.
-/

set_option maxRecDepth 20000

namespace PRS

/-- Member category, `type` in the source: 'MP' or 'MLA'. -/
inductive Role
  | MP
  | MLA
deriving DecidableEq, Repr

/-- The alternate role, source: `type === 'MLA' ? 'MP' : 'MLA'`. -/
def altRole : Role → Role
  | Role.MLA => Role.MP
  | Role.MP => Role.MLA

/-! ## String utilities mirroring the JavaScript string operations -/

/-- JavaScript whitespace class used by the source's regexes (ASCII part). -/
def isJsWS (c : Char) : Bool :=
  c = ' ' || c = '\t' || c = '\n' || c = '\r' || c = '\x0b' || c = '\x0c'

/-- Lower-case ASCII letter or digit, the class [a-z0-9]. -/
def isLowerAlnum (c : Char) : Bool :=
  ('a' ≤ c && c ≤ 'z') || ('0' ≤ c && c ≤ '9')

/-- Chars, lowercased: the ASCII core of JavaScript toLowerCase(). -/
def lowerChars (s : List Char) : List Char :=
  s.map Char.toLower

/-- The replace of each '+' by a space: .replace of plus-signs with ' '. -/
def plusToSpace (s : List Char) : List Char :=
  s.map (fun c => if c = '+' then ' ' else c)

/-- Each maximal run of characters satisfying `hit` becomes the single
character `out`; the Bool argument records whether the previous character
was in a run.  Models the global regex replaces of the source that map a
character-class run to one character. -/
def squashRuns (hit : Char → Bool) (out : Char) : Bool → List Char → List Char
  | _, [] => []
  | prev, c :: cs =>
    if hit c then
      if prev then squashRuns hit out true cs
      else out :: squashRuns hit out true cs
    else c :: squashRuns hit out false cs

/-- Whitespace runs to a single dash: .replace of whitespace-runs with '-'. -/
def wsToDash (s : List Char) : List Char :=
  squashRuns isJsWS '-' false s

/-- Whitespace runs to a single space: .replace of whitespace-runs with ' '. -/
def wsToSpace (s : List Char) : List Char :=
  squashRuns isJsWS ' ' false s

/-- Runs of '+' or '_' to a single space, regex [+_]+ to ' '. -/
def plusUnderToSpace (s : List Char) : List Char :=
  squashRuns (fun c => c = '+' || c = '_') ' ' false s

/-- Dash runs collapsed to a single dash, regex -+ to '-'. -/
def collapseDashes (s : List Char) : List Char :=
  squashRuns (fun c => c = '-') '-' false s

/-- Drop leading whitespace. -/
def dropLeadWS : List Char → List Char
  | [] => []
  | c :: cs => if isJsWS c then dropLeadWS cs else c :: cs

/-- JavaScript String.trim (ASCII whitespace). -/
def trimWS (s : List Char) : List Char :=
  (dropLeadWS (dropLeadWS s).reverse).reverse

/-- Drop one leading dash if present. -/
def dropOneDash : List Char → List Char
  | '-' :: cs => cs
  | cs => cs

/-- The regex replace of a leading or a trailing dash with nothing. -/
def stripEdgeDashes (s : List Char) : List Char :=
  (dropOneDash (dropOneDash s).reverse).reverse

/-- Whether `s` starts with `pat`. -/
def startsWithChars : List Char → List Char → Bool
  | _, [] => true
  | [], _ :: _ => false
  | c :: cs, p :: ps => p = c && startsWithChars cs ps

/-- Substring search over char lists. -/
def containsChars : List Char → List Char → Bool
  | [], pat => pat.isEmpty
  | s@(_ :: cs), pat => startsWithChars s pat || containsChars cs pat

/-- JavaScript String.includes. -/
def containsStr (s pat : String) : Bool :=
  containsChars s.toList pat.toList

/-- The test of the regex of a dash followed by trailing digits, applied to
the characters before a given reversed position. -/
def dashBeforeDigits : List Char → Bool
  | [] => false
  | c :: rest => if c.isDigit then dashBeforeDigits rest else c = '-'

/-- The test of the source's dash-digits-at-end regex used by the priority
grouping: the string ends with a dash followed by one or more digits. -/
def endsWithDashDigits (u : String) : Bool :=
  match u.toList.reverse with
  | [] => false
  | c :: rest => c.isDigit && dashBeforeDigits rest

/-- Splits on whitespace runs, dropping empty fields: the source's
.trim().split of whitespace-runs with a filter of nonempty parts. -/
def wordsSplit (s : List Char) : List (List Char) :=
  s.foldr
    (fun c acc =>
      if isJsWS c then [] :: acc
      else
        match acc with
        | [] => [[c]]
        | w :: ws => (c :: w) :: ws)
    []

/-- The word list of a string (maximal non-whitespace runs). -/
def wordsOf (s : String) : List String :=
  ((wordsSplit s.toList).filter (fun w => !w.isEmpty)).map String.mk

/-! ## Candidate URL construction, src/src/prsService.js lines 155-309 -/

/-- The slug of constructURLs lines 157-164: lowercase, '+' to space, dots
removed, whitespace runs to '-', other specials removed, dash runs
collapsed, edge dashes stripped. -/
def nameSlugOf (name : String) : String :=
  String.mk (stripEdgeDashes (collapseDashes
    ((wsToDash ((plusToSpace (lowerChars name.toList)).filter (fun c => c != '.'))).filter
      (fun c => isLowerAlnum c || c = '-'))))

/-- The cleaning chain of the name variations, lines 199-203: lowercase,
remove all but [a-z0-9-], collapse dash runs, strip edge dashes. -/
def cleanSlugOf (s : String) : String :=
  String.mk (stripEdgeDashes (collapseDashes
    ((lowerChars s.toList).filter (fun c => isLowerAlnum c || c = '-'))))

/-- Plain toLowerCase of a string, the shadowed firstLast of line 225. -/
def lowerStrOf (s : String) : String :=
  String.mk (lowerChars s.toList)

/-- The parts of a name, lines 191-195: '+' to space, trim, split on
whitespace, keep nonempty. -/
def partsOf (name : String) : List String :=
  wordsOf (String.mk (plusToSpace name.toList))

/-- The three Lok Sabha session identifiers, newest first (line 179). -/
def lokSabhas : List String :=
  ["18th-lok-sabha", "17th-lok-sabha", "16th-lok-sabha"]

/-- The numeric disambiguation suffixes (line 180). -/
def numericSuffixes : List String :=
  ["", "-1", "-2", "-3"]

/-- An mptrack profile URL for a session and slug. -/
def mptrackURL (sabha slug : String) : String :=
  "https://prsindia.org/mptrack/" ++ sabha ++ "/" ++ slug

/-- An mlatrack profile URL for a slug. -/
def mlatrackURL (slug : String) : String :=
  "https://prsindia.org/mlatrack/" ++ slug

/-- The session-by-suffix cross product for one slug (the nested loops of
lines 183-187 and 207-212). -/
def mpCross (slug : String) : List String :=
  lokSabhas.flatMap (fun sabha => numericSuffixes.map (fun suffix => mptrackURL sabha (slug ++ suffix)))

/-- The suffix-free session loop for one slug (lines 228-230 and 242-244). -/
def mpBare (slug : String) : List String :=
  lokSabhas.map (fun sabha => mptrackURL sabha slug)

/-- The suffix loop for one MLA slug (lines 256-258 and 276-278). -/
def mlaCross (slug : String) : List String :=
  numericSuffixes.map (fun suffix => mlatrackURL (slug ++ suffix))

/-- One step of the Set-based addURL of lines 170-175: append the URL only
when it is not yet present. -/
def addUnique (acc : List String) (u : String) : List String :=
  if u ∈ acc then acc else acc ++ [u]

/-- Deduplication preserving first-seen order, the urlSet/urls pair of
lines 166-175. -/
def dedupFirst (l : List String) : List String :=
  l.foldl addUnique []

/-- The sequence of addURL calls of the MP branch of constructURLs
(lines 177-248), before deduplication. -/
def rawMPURLs (name : String) (reduced : Bool) : List String :=
  let nameSlug := nameSlugOf name
  let base := mpCross nameSlug
  if reduced then base
  else
    let parts := partsOf name
    let p0 := parts.headD ""
    let pl := parts.getLastD ""
    let firstLast := cleanSlugOf (p0 ++ "-" ++ pl)
    let flBlock :=
      if 2 ≤ parts.length ∧ firstLast ≠ nameSlug ∧ firstLast ≠ "" then mpCross firstLast
      else []
    let threeBlock :=
      if 3 ≤ parts.length then
        let skipMiddle := cleanSlugOf (p0 ++ "-" ++ pl)
        let firstLastRaw := lowerStrOf (p0 ++ "-" ++ pl)
        let skipBlock :=
          if skipMiddle ≠ nameSlug ∧ skipMiddle ≠ firstLastRaw ∧ skipMiddle ≠ "" then
            mpBare skipMiddle
          else []
        let p1 := parts.getD 1 ""
        let filBlock :=
          if 0 < p1.length then
            let firstInitialLast := cleanSlugOf (p0 ++ "-" ++ String.mk (p1.toList.take 1) ++ "-" ++ pl)
            if firstInitialLast ≠ nameSlug ∧ firstInitialLast ≠ "" then mpBare firstInitialLast
            else []
          else []
        skipBlock ++ filBlock
      else []
    base ++ (flBlock ++ threeBlock)

/-- The sequence of addURL calls of the MLA branch of constructURLs
(lines 250-298), before deduplication. -/
def rawMLAURLs (name : String) (reduced : Bool) : List String :=
  let nameSlug := nameSlugOf name
  let base := mlaCross nameSlug
  if reduced then base
  else
    let parts := partsOf name
    let p0 := parts.headD ""
    let pl := parts.getLastD ""
    let firstLast := cleanSlugOf (p0 ++ "-" ++ pl)
    let flBlock :=
      if 2 ≤ parts.length ∧ firstLast ≠ nameSlug ∧ firstLast ≠ "" then mlaCross firstLast
      else []
    let skipBlock :=
      if 3 ≤ parts.length then
        let skipMiddle := cleanSlugOf (p0 ++ "-" ++ pl)
        let firstLastRaw := lowerStrOf (p0 ++ "-" ++ pl)
        if skipMiddle ≠ nameSlug ∧ skipMiddle ≠ firstLastRaw ∧ skipMiddle ≠ "" then
          [mlatrackURL skipMiddle]
        else []
      else []
    base ++ (flBlock ++ skipBlock)

/-- constructURLs of src/src/prsService.js lines 155-309: the raw addURL
sequence, deduplicated keeping first-seen order. -/
def constructURLs (name : String) (ty : Role) (reduced : Bool) : List String :=
  dedupFirst
    (match ty with
      | Role.MP => rawMPURLs name reduced
      | Role.MLA => rawMLAURLs name reduced)

/-- The distinct slug candidates the MP builder derives from a name: the
base slug plus each name variation, under exactly the guards under which
constructURLs emits URLs for it (spec section 4.1's SlugCandidate set). -/
def slugCandidates (name : String) : List String :=
  let nameSlug := nameSlugOf name
  let parts := partsOf name
  let p0 := parts.headD ""
  let pl := parts.getLastD ""
  let firstLast := cleanSlugOf (p0 ++ "-" ++ pl)
  let flS :=
    if 2 ≤ parts.length ∧ firstLast ≠ nameSlug ∧ firstLast ≠ "" then [firstLast] else []
  let restS :=
    if 3 ≤ parts.length then
      let skipMiddle := cleanSlugOf (p0 ++ "-" ++ pl)
      let firstLastRaw := lowerStrOf (p0 ++ "-" ++ pl)
      let skipS :=
        if skipMiddle ≠ nameSlug ∧ skipMiddle ≠ firstLastRaw ∧ skipMiddle ≠ "" then [skipMiddle]
        else []
      let p1 := parts.getD 1 ""
      let filS :=
        if 0 < p1.length then
          let firstInitialLast := cleanSlugOf (p0 ++ "-" ++ String.mk (p1.toList.take 1) ++ "-" ++ pl)
          if firstInitialLast ≠ nameSlug ∧ firstInitialLast ≠ "" then [firstInitialLast] else []
        else []
      skipS ++ filS
    else []
  dedupFirst ([nameSlug] ++ flS ++ restS)

/-! ## The part_000 variant: generateNameSlugs and its constructURLs
(src/unnamed/part_000 lines 577-641) -/

namespace P0

/-- The alternatives of the honorific-prefix regex of generateNameSlugs
(part_000 line 621), in regex order; the Bool records whether the
alternative carries an optional trailing dot. -/
def honorificAlts : List (String × Bool) :=
  [("dr", true), ("shri", false), ("smt", true), ("prof", true), ("mr", true),
   ("mrs", true), ("ms", true), ("s", true), ("sh", true)]

/-- Consume a literal prefix, returning the rest on a match. -/
def consumeLit : List Char → List Char → Option (List Char)
  | [], s => some s
  | _ :: _, [] => none
  | p :: ps, c :: cs => if p = c then consumeLit ps cs else none

/-- Consume at least one whitespace character greedily (the regex
whitespace-plus after the honorific). -/
def afterWS1 : List Char → Option (List Char)
  | [] => none
  | c :: cs => if isJsWS c then some (dropLeadWS cs) else none

/-- One regex alternative with its optional dot, greedy with backtracking:
first the alternative with the dot, then without, each followed by at least
one whitespace character. -/
def matchHonorific (alt : List Char) (optDot : Bool) (s : List Char) : Option (List Char) :=
  match consumeLit alt s with
  | none => none
  | some rest =>
    let withDot :=
      if optDot then
        match rest with
        | '.' :: r2 => afterWS1 r2
        | _ => none
      else none
    match withDot with
    | some r => some r
    | none => afterWS1 rest

/-- Try the alternatives in regex order. -/
def stripHonorificAux : List (String × Bool) → List Char → Option (List Char)
  | [], _ => none
  | (alt, od) :: rest, s =>
    match matchHonorific alt.toList od s with
    | some r => some r
    | none => stripHonorificAux rest s

/-- The single anchored replacement of the honorific-prefix regex: the
anchor makes the global replace fire at most once, at the start. -/
def stripHonorific (s : List Char) : List Char :=
  (stripHonorificAux honorificAlts s).getD s

/-- Each character outside [a-z0-9] and whitespace becomes a space
(part_000 line 623). -/
def nonAlnumWSToSpace (s : List Char) : List Char :=
  s.map (fun c => if isLowerAlnum c || isJsWS c then c else ' ')

/-- cleanName of generateNameSlugs, part_000 lines 618-625: trim,
lowercase, strip one honorific prefix, '+'/'_' runs to space, other
specials to space, whitespace runs to one space, trim. -/
def cleanNameOf (name : String) : String :=
  String.mk (trimWS (wsToSpace (nonAlnumWSToSpace
    (plusUnderToSpace (stripHonorific (lowerChars (trimWS name.toList)))))))

/-- JavaScript String.split on the single space character, keeping empty
fields (part_000 line 630). -/
def splitOnSpace (s : String) : List String :=
  (s.toList.foldr
    (fun c acc =>
      if c = ' ' then [] :: acc
      else
        match acc with
        | [] => [[c]]
        | w :: ws => (c :: w) :: ws)
    [[]]).map String.mk

/-- generateNameSlugs of part_000 lines 615-641: the basic slug, a
first-last slug for more than two parts, a first-middle-last slug for more
than three parts, deduplicated via a Set. -/
def generateNameSlugs (name : String) : List String :=
  let cleanName := cleanNameOf name
  let basicSlug := String.mk (wsToDash cleanName.toList)
  let parts := splitOnSpace cleanName
  let slugs := [basicSlug]
  let slugs :=
    if 2 < parts.length then slugs ++ [parts.headD "" ++ "-" ++ parts.getLastD ""] else slugs
  let slugs :=
    if 3 < parts.length then
      slugs ++ [parts.headD "" ++ "-" ++ parts.getD 1 "" ++ "-" ++ parts.getLastD ""]
    else slugs
  dedupFirst slugs

/-- constructURLs of part_000 lines 577-613: session-by-slug loops, extra
suffixed URLs only when not reduced, and a cap of five candidates in the
reduced pass. -/
def constructURLs (name : String) (ty : Role) (reduced : Bool) : List String :=
  let slugs := generateNameSlugs name
  let urls :=
    match ty with
    | Role.MP =>
      let sessions :=
        if reduced then ["18th-lok-sabha"]
        else ["18th-lok-sabha", "17th-lok-sabha", "16th-lok-sabha"]
      let base := sessions.flatMap (fun session => slugs.map (fun slug => mptrackURL session slug))
      let extra :=
        if reduced then []
        else
          (sessions.take 2).flatMap (fun session =>
            slugs.flatMap (fun slug =>
              [mptrackURL session (slug ++ "-1"), mptrackURL session (slug ++ "-2")]))
      base ++ extra
    | Role.MLA =>
      let base := slugs.map (fun slug => mlatrackURL slug)
      let extra :=
        if reduced then []
        else
          slugs.flatMap (fun slug =>
            [mlatrackURL (slug ++ "-1"), mlatrackURL (slug ++ "-2"), mlatrackURL (slug ++ "-3")])
      base ++ extra
  if reduced then urls.take 5 else urls

end P0

/-! ## Page validation, src/src/prsService.js lines 315-348 -/

/-- validateMemberPage: reject short bodies and error markers, then require
a role-specific positive indicator. -/
def validateMemberPage (html : String) (ty : Role) : Bool :=
  if html.length < 500 then false
  else
    let lowerHTML := String.mk (lowerChars html.toList)
    if containsStr lowerHTML "page not found" || containsStr lowerHTML "404" ||
        containsStr lowerHTML "the requested page" || containsStr lowerHTML "no member found" then
      false
    else
      match ty with
      | Role.MP =>
        containsStr html "mp-attendance" || containsStr html "mp-debate" ||
        containsStr html "mp-questions" || containsStr html "mp_state" ||
        containsStr html "mp_constituency" || containsStr html "mptrack"
      | Role.MLA =>
        containsStr html "mla_state" || containsStr html "mla_constituency" ||
        containsStr html "mlatrack" || containsStr html "field-name-field-mla-name"

/-! ## The parsed flat format, src/src/prsService.js lines 354-455 and
461-635.  The cheerio DOM is an external collaborator: a document enters
the model as the record of texts its selectors produce, and the parsed
object is an association list of field names to string values, so that the
presence of a key is part of the model. -/

/-- The value of a key of a parsed object; an absent key reads as the
empty (falsy) string, as an undefined property does in the source. -/
def lookupKey (d : List (String × String)) (k : String) : String :=
  match d.find? (fun p => p.1 == k) with
  | some p => p.2
  | none => ""

/-- The twelve performance metrics of extractParliamentaryPerformance. -/
structure Metrics where
  attendance : String
  natAttendance : String
  stateAttendance : String
  debates : String
  natDebates : String
  stateDebates : String
  questions : String
  natQuestions : String
  stateQuestions : String
  pmb : String
  natPMB : String
  statePMB : String
deriving DecidableEq, Repr

/-- What the document offers to the three extraction strategies of
extractParliamentaryPerformance (lines 461-635): the trimmed text of each
strategy-1 field selector, the trimmed texts of the strategy-2 generic
field items per metric container, and for strategy 3 the trimmed span
labels of the attendance container paired with the trimmed text of the
first field item after each span. -/
structure PerfSelectors where
  att1 : String
  natAtt1 : String
  stateAtt1 : String
  deb1 : String
  natDeb1 : String
  stateDeb1 : String
  q1 : String
  natQ1 : String
  stateQ1 : String
  pmb1 : String
  natPmb1 : String
  statePmb1 : String
  attItems : List String
  debItems : List String
  qItems : List String
  pmbItems : List String
  attSpans : List (String × String)
deriving DecidableEq, Repr

/-- extractParliamentaryPerformance, lines 461-635: strategy 1 reads the
direct selectors; strategy 2 overwrites a metric group from the generic
field items when the group's own value is empty; strategy 3 walks the
attendance spans matching label texts when attendance is still empty; the
final assignment keeps sentinels for empty values, with the PMB pair
defaulting to the string zero and statePMB defaulting like the rest. -/
def extractParliamentaryPerformance (d : PerfSelectors) : Metrics :=
  let attendance := d.att1
  let natAttendance := d.natAtt1
  let stateAttendance := d.stateAtt1
  let debates := d.deb1
  let natDebates := d.natDeb1
  let stateDebates := d.stateDeb1
  let questions := d.q1
  let natQuestions := d.natQ1
  let stateQuestions := d.stateQ1
  let pmb := d.pmb1
  let natPMB := d.natPmb1
  let statePMB := d.statePmb1
  let a2 :=
    if attendance = "" then
      (if 1 ≤ d.attItems.length then d.attItems.getD 0 "" else attendance,
       if 2 ≤ d.attItems.length then d.attItems.getD 1 "" else natAttendance,
       if 3 ≤ d.attItems.length then d.attItems.getD 2 "" else stateAttendance)
    else (attendance, natAttendance, stateAttendance)
  let attendance := a2.1
  let natAttendance := a2.2.1
  let stateAttendance := a2.2.2
  let d2 :=
    if debates = "" then
      (if 1 ≤ d.debItems.length then d.debItems.getD 0 "" else debates,
       if 2 ≤ d.debItems.length then d.debItems.getD 1 "" else natDebates,
       if 3 ≤ d.debItems.length then d.debItems.getD 2 "" else stateDebates)
    else (debates, natDebates, stateDebates)
  let debates := d2.1
  let natDebates := d2.2.1
  let stateDebates := d2.2.2
  let q2 :=
    if questions = "" then
      (if 1 ≤ d.qItems.length then d.qItems.getD 0 "" else questions,
       if 2 ≤ d.qItems.length then d.qItems.getD 1 "" else natQuestions,
       if 3 ≤ d.qItems.length then d.qItems.getD 2 "" else stateQuestions)
    else (questions, natQuestions, stateQuestions)
  let questions := q2.1
  let natQuestions := q2.2.1
  let stateQuestions := q2.2.2
  let p2 :=
    if pmb = "" then
      (if 1 ≤ d.pmbItems.length then d.pmbItems.getD 0 "" else pmb,
       if 2 ≤ d.pmbItems.length then d.pmbItems.getD 1 "" else natPMB,
       if 3 ≤ d.pmbItems.length then d.pmbItems.getD 2 "" else statePMB)
    else (pmb, natPMB, statePMB)
  let pmb := p2.1
  let natPMB := p2.2.1
  let statePMB := p2.2.2
  let a3 :=
    if attendance = "" then
      d.attSpans.foldl
        (fun acc sp =>
          if sp.1 = "Selected MP" then (sp.2, acc.2.1, acc.2.2)
          else if sp.1 = "National Average" then (acc.1, sp.2, acc.2.2)
          else if sp.1 = "State Average" then (acc.1, acc.2.1, sp.2)
          else acc)
        (attendance, natAttendance, stateAttendance)
    else (attendance, natAttendance, stateAttendance)
  let attendance := a3.1
  let natAttendance := a3.2.1
  let stateAttendance := a3.2.2
  { attendance := if attendance ≠ "" then attendance else "N/A"
    natAttendance := if natAttendance ≠ "" then natAttendance else "N/A"
    stateAttendance := if stateAttendance ≠ "" then stateAttendance else "N/A"
    debates := if debates ≠ "" then debates else "N/A"
    natDebates := if natDebates ≠ "" then natDebates else "N/A"
    stateDebates := if stateDebates ≠ "" then stateDebates else "N/A"
    questions := if questions ≠ "" then questions else "N/A"
    natQuestions := if natQuestions ≠ "" then natQuestions else "N/A"
    stateQuestions := if stateQuestions ≠ "" then stateQuestions else "N/A"
    pmb := if pmb ≠ "" then pmb else "0"
    natPMB := if natPMB ≠ "" then natPMB else "0"
    statePMB := if statePMB ≠ "" then statePMB else "N/A" }

/-- The metrics spread into the flat object, in source order. -/
def metricsPairs (m : Metrics) : List (String × String) :=
  [("attendance", m.attendance), ("natAttendance", m.natAttendance),
   ("stateAttendance", m.stateAttendance), ("debates", m.debates),
   ("natDebates", m.natDebates), ("stateDebates", m.stateDebates),
   ("questions", m.questions), ("natQuestions", m.natQuestions),
   ("stateQuestions", m.stateQuestions), ("pmb", m.pmb),
   ("natPMB", m.natPMB), ("statePMB", m.statePMB)]

/-- The outputs of the cheerio-based field extractors the MP path calls
(extractName .. extractEducation and the three table extractors). -/
structure MPExtract where
  name : String
  imageUrl : String
  state : String
  constituency : String
  party : String
  termStart : String
  termEnd : String
  noOfTerm : String
  membership : String
  age : String
  gender : String
  education : String
  attendanceTable : String
  debatesTable : String
  questionsTable : String
deriving DecidableEq, Repr

/-- The outputs of the cheerio-based field extractors the MLA path calls
(extractMLAName .. extractMLAEducation). -/
structure MLAExtract where
  name : String
  imageUrl : String
  state : String
  constituency : String
  party : String
  termStart : String
  termEnd : String
  membership : String
  age : String
  gender : String
  education : String
deriving DecidableEq, Repr

/-- parseMPData, lines 369-406: the flat MP object, keys in source order. -/
def parseMPData (e : MPExtract) (p : PerfSelectors) : List (String × String) :=
  [("type", "MP"), ("name", e.name), ("imageUrl", e.imageUrl), ("state", e.state),
   ("constituency", e.constituency), ("party", e.party), ("termStart", e.termStart),
   ("termEnd", e.termEnd), ("noOfTerm", e.noOfTerm), ("membership", e.membership),
   ("age", e.age), ("gender", e.gender), ("education", e.education)] ++
  metricsPairs (extractParliamentaryPerformance p) ++
  [("attendanceTable", e.attendanceTable), ("debatesTable", e.debatesTable),
   ("questionsTable", e.questionsTable)]

/-- parseMLAData, lines 408-455: the flat MLA object; every performance
metric is the literal sentinel, every table the empty string, and the note
depends on the data-not-available banner. -/
def parseMLAData (e : MLAExtract) (dataNotAvailable : Bool) : List (String × String) :=
  [("type", "MLA"), ("name", e.name), ("imageUrl", e.imageUrl), ("state", e.state),
   ("constituency", e.constituency), ("party", e.party), ("termStart", e.termStart),
   ("termEnd", e.termEnd), ("membership", e.membership), ("age", e.age),
   ("gender", e.gender), ("education", e.education),
   ("attendance", "N/A"), ("natAttendance", "N/A"), ("stateAttendance", "N/A"),
   ("debates", "N/A"), ("natDebates", "N/A"), ("stateDebates", "N/A"),
   ("questions", "N/A"), ("natQuestions", "N/A"), ("stateQuestions", "N/A"),
   ("pmb", "N/A"), ("natPMB", "N/A"), ("statePMB", "N/A"),
   ("attendanceTable", ""), ("debatesTable", ""), ("questionsTable", ""),
   ("note",
     if dataNotAvailable then "Data not available"
     else "Member data is taken from the election affidavits")]

/-- A fetched document as the parser sees it: the text of the centered
heading the banner check reads, and the selector outputs of the two role
paths. -/
structure Document where
  textCenterH3 : String
  mp : MPExtract
  mpPerf : PerfSelectors
  mla : MLAExtract

/-- parseToFlatFormat, lines 354-367: the banner check, then the role
branch. -/
def parseToFlatFormat (doc : Document) (ty : Role) : List (String × String) :=
  let dataNotAvailable := containsStr doc.textCenterH3 "Data not available"
  match ty with
  | Role.MP => parseMPData doc.mp doc.mpPerf
  | Role.MLA => parseMLAData doc.mla dataNotAvailable

/-- The data object of getEmptyResponse, lines 904-936, in source order. -/
def getEmptyResponseData : List (String × String) :=
  [("type", "Unknown"), ("name", "Unknown"), ("imageUrl", ""), ("state", "N/A"),
   ("constituency", "N/A"), ("party", "N/A"), ("termStart", "N/A"), ("termEnd", "N/A"),
   ("age", "N/A"), ("gender", "N/A"), ("education", "N/A"),
   ("attendance", "N/A"), ("natAttendance", "N/A"), ("stateAttendance", "N/A"),
   ("debates", "N/A"), ("natDebates", "N/A"), ("stateDebates", "N/A"),
   ("questions", "N/A"), ("natQuestions", "N/A"), ("stateQuestions", "N/A"),
   ("pmb", "N/A"), ("natPMB", "N/A"), ("statePMB", "N/A"),
   ("attendanceTable", ""), ("debatesTable", ""), ("questionsTable", "")]

/-! ## The probe scheduler, src/src/prsService.js lines 43-149, and the
role fallback of getPRSData, lines 8-37.  The HTTP fetch and the cheerio
parse are external collaborators, so the scheduler is parameterized by
them: fetchHTML yields the body of a URL or none for a thrown fetch error,
and parseToFlat stands for parseToFlatFormat on a fetched body. -/

/-- The external collaborators of one resolution run. -/
structure Env where
  fetchHTML : String → Option String
  parseToFlat : Role → String → List (String × String)

/-- One probe of tryFetchWithType, lines 96-118: fetch, and keep the body
only when it is truthy and validates; a thrown error is swallowed and
counts as a miss. -/
def probeHit (env : Env) (ty : Role) (u : String) : Option String :=
  match env.fetchHTML u with
  | none => none
  | some html => if html != "" && validateMemberPage html ty then some html else none

/-- Whether a probe of a URL yields a resolvable hit: the fetched body
validates and the parsed name field is truthy and not the Unknown sentinel
(the acceptance check of lines 124-129). -/
def resolves (env : Env) (ty : Role) (u : String) : Bool :=
  match probeHit env ty u with
  | none => false
  | some html =>
    let n := lookupKey (env.parseToFlat ty html) "name"
    n != "" && n != "Unknown"

/-- The priority groups of tryFetchWithType, lines 53-82: six session-by-
suffix tiers for MP, two suffix tiers for MLA. -/
def priorityGroups (urls : List String) (ty : Role) : List (List String) :=
  match ty with
  | Role.MP =>
    [urls.filter (fun u => containsStr u "18th-lok-sabha" && !endsWithDashDigits u),
     urls.filter (fun u => containsStr u "18th-lok-sabha" && endsWithDashDigits u),
     urls.filter (fun u => containsStr u "17th-lok-sabha" && !endsWithDashDigits u),
     urls.filter (fun u => containsStr u "17th-lok-sabha" && endsWithDashDigits u),
     urls.filter (fun u => containsStr u "16th-lok-sabha" && !endsWithDashDigits u),
     urls.filter (fun u => containsStr u "16th-lok-sabha" && endsWithDashDigits u)]
  | Role.MLA =>
    [urls.filter (fun u => !endsWithDashDigits u),
     urls.filter (fun u => endsWithDashDigits u)]

/-- The sequential tier loop of lines 87-145: each tier settles all its
probes, then the first resolvable hit in list order is returned; otherwise
the loop advances.  The second component records every URL handed to the
fetcher, in order. -/
def runGroups (env : Env) (ty : Role) : List (List String) → Option String × List String
  | [] => (none, [])
  | g :: rest =>
    match g.find? (fun u => resolves env ty u) with
    | some u => (some u, g)
    | none =>
      let r := runGroups env ty rest
      (r.1, g ++ r.2)

/-- The result object of the resolution: found with its data and
provenance, or the empty response; searchedAs/foundAs are attached by
getPRSData, and probed records the URLs handed to the fetcher. -/
structure FetchResult where
  found : Bool
  data : List (String × String)
  sourceUrl : Option String := none
  checkedUrls : Option Nat := none
  totalUrls : Option Nat := none
  searchedAs : Option Role := none
  foundAs : Option Role := none
  probed : List String := []
deriving DecidableEq, Repr

/-- getEmptyResponse, lines 904-936. -/
def getEmptyResponse : FetchResult :=
  { found := false, data := getEmptyResponseData }

/-- The body of tryFetchWithType after URL construction, lines 46-148:
empty candidate list short-circuits; otherwise the tier loop runs and a
hit carries its parsed data, source URL and the checked/total counts. -/
def schedule (env : Env) (ty : Role) (urls : List String) : FetchResult :=
  if urls.isEmpty then getEmptyResponse
  else
    match runGroups env ty (priorityGroups urls ty) with
    | (some u, probed) =>
      { found := true
        data := env.parseToFlat ty ((probeHit env ty u).getD "")
        sourceUrl := some u
        checkedUrls := some probed.length
        totalUrls := some urls.length
        probed := probed }
    | (none, probed) => { getEmptyResponse with probed := probed }

/-- tryFetchWithType, lines 43-149. -/
def tryFetchWithType (env : Env) (name : String) (ty : Role) (reduced : Bool) : FetchResult :=
  schedule env ty (constructURLs name ty reduced)

/-- getPRSData, lines 8-37: the requested role with the full budget;
on a miss, the alternate role with the reduced budget; on a total miss,
the empty response.  searchedAs records the requested role and foundAs
the role that produced the hit. -/
def getPRSData (env : Env) (name : String) (ty : Role) : FetchResult :=
  let result := tryFetchWithType env name ty false
  if result.found then
    { result with searchedAs := some ty, foundAs := some ty }
  else
    let alternateType := altRole ty
    let altResult := tryFetchWithType env name alternateType true
    if altResult.found then
      { altResult with
        searchedAs := some ty
        foundAs := some alternateType
        probed := result.probed ++ altResult.probed }
    else
      { getEmptyResponse with probed := result.probed ++ altResult.probed }

/-! ## Derived key lists and concrete instances -/

/-- The keys of the flat MP object, in source order. -/
def mpProfileKeys : List String :=
  ["type", "name", "imageUrl", "state", "constituency", "party", "termStart", "termEnd",
   "noOfTerm", "membership", "age", "gender", "education",
   "attendance", "natAttendance", "stateAttendance", "debates", "natDebates", "stateDebates",
   "questions", "natQuestions", "stateQuestions", "pmb", "natPMB", "statePMB",
   "attendanceTable", "debatesTable", "questionsTable"]

/-- The keys of the flat MLA object, in source order. -/
def mlaProfileKeys : List String :=
  ["type", "name", "imageUrl", "state", "constituency", "party", "termStart", "termEnd",
   "membership", "age", "gender", "education",
   "attendance", "natAttendance", "stateAttendance", "debates", "natDebates", "stateDebates",
   "questions", "natQuestions", "stateQuestions", "pmb", "natPMB", "statePMB",
   "attendanceTable", "debatesTable", "questionsTable", "note"]

/-- The keys of the getEmptyResponse data object, in source order. -/
def emptyProfileKeys : List String :=
  ["type", "name", "imageUrl", "state", "constituency", "party", "termStart", "termEnd",
   "age", "gender", "education",
   "attendance", "natAttendance", "stateAttendance", "debates", "natDebates", "stateDebates",
   "questions", "natQuestions", "stateQuestions", "pmb", "natPMB", "statePMB",
   "attendanceTable", "debatesTable", "questionsTable"]

/-- A document whose field extractors all come back empty. -/
def mpExtract0 : MPExtract :=
  ⟨"", "", "", "", "", "", "", "", "", "", "", "", "", "", ""⟩

/-- A document offering nothing to any performance-extraction strategy. -/
def perfSel0 : PerfSelectors :=
  ⟨"", "", "", "", "", "", "", "", "", "", "", "", [], [], [], [], []⟩

/-- Whether a document offers no value to any of the three
performance-extraction strategies. -/
def noPerfData (d : PerfSelectors) : Bool :=
  d.att1 == "" && d.natAtt1 == "" && d.stateAtt1 == "" && d.deb1 == "" && d.natDeb1 == "" &&
  d.stateDeb1 == "" && d.q1 == "" && d.natQ1 == "" && d.stateQ1 == "" && d.pmb1 == "" &&
  d.natPmb1 == "" && d.statePmb1 == "" &&
  d.attItems.isEmpty && d.debItems.isEmpty && d.qItems.isEmpty && d.pmbItems.isEmpty &&
  d.attSpans.isEmpty

/-- The metric record an all-miss extraction produces: sentinels
everywhere except the own and national PMB defaults. -/
def allDefaultMetrics : Metrics :=
  ⟨"N/A", "N/A", "N/A", "N/A", "N/A", "N/A", "N/A", "N/A", "N/A", "0", "0", "N/A"⟩

/-- An environment whose every fetch fails. -/
def noneEnv : Env :=
  { fetchHTML := fun _ => none, parseToFlat := fun _ _ => [] }

/-- A body long enough to validate as an MLA page. -/
def mlaProbeBody : String :=
  "mla_state" ++ String.mk (List.replicate 500 'a')

/-- An environment in which exactly one suffixed URL resolves. -/
def tierEnv : Env :=
  { fetchHTML := fun u => if u == "https://x/u-1" then some mlaProbeBody else none
    parseToFlat := fun _ _ => [("name", "A Name")] }

/-! ## Helper lemmas -/

theorem mem_addUnique {a u : String} {acc : List String} :
    a ∈ addUnique acc u ↔ a ∈ acc ∨ a = u := by
  unfold addUnique
  split
  · rename_i h
    constructor
    · exact Or.inl
    · rintro (h1 | rfl)
      · exact h1
      · exact h
  · simp [List.mem_append]

theorem mem_foldl_addUnique (l : List String) (acc : List String) (a : String) :
    a ∈ l.foldl addUnique acc ↔ a ∈ acc ∨ a ∈ l := by
  induction l generalizing acc with
  | nil => simp
  | cons u t ih =>
    simp only [List.foldl_cons, ih, mem_addUnique, List.mem_cons]
    tauto

theorem mem_dedupFirst {a : String} {l : List String} :
    a ∈ dedupFirst l ↔ a ∈ l := by
  unfold dedupFirst
  rw [mem_foldl_addUnique]
  simp

theorem mem_mpCross {u slug : String} (h : u ∈ mpCross slug) :
    ∃ sabha suffix, sabha ∈ lokSabhas ∧ suffix ∈ numericSuffixes ∧
      u = mptrackURL sabha (slug ++ suffix) := by
  simp only [mpCross, List.mem_flatMap, List.mem_map] at h
  obtain ⟨sabha, hs, suffix, hsuf, rfl⟩ := h
  exact ⟨sabha, suffix, hs, hsuf, rfl⟩

theorem mem_mpBare {u slug : String} (h : u ∈ mpBare slug) :
    ∃ sabha suffix, sabha ∈ lokSabhas ∧ suffix ∈ numericSuffixes ∧
      u = mptrackURL sabha (slug ++ suffix) := by
  simp only [mpBare, List.mem_map] at h
  obtain ⟨sabha, hs, rfl⟩ := h
  exact ⟨sabha, "", hs, by simp [numericSuffixes], by rw [String.append_empty]⟩

theorem mem_mlaCross {u slug : String} (h : u ∈ mlaCross slug) :
    ∃ suffix, suffix ∈ numericSuffixes ∧ u = mlatrackURL (slug ++ suffix) := by
  simp only [mlaCross, List.mem_map] at h
  obtain ⟨suffix, hsuf, rfl⟩ := h
  exact ⟨suffix, hsuf, rfl⟩

theorem mpCross_mem_base (slug sabha : String) (hs : sabha ∈ lokSabhas) :
    mptrackURL sabha slug ∈ mpCross slug := by
  simp only [mpCross, List.mem_flatMap, List.mem_map]
  exact ⟨sabha, hs, "", by simp [numericSuffixes], by rw [String.append_empty]⟩

theorem mlaCross_mem_base (slug : String) : mlatrackURL slug ∈ mlaCross slug := by
  simp only [mlaCross, List.mem_map]
  exact ⟨"", by simp [numericSuffixes], by rw [String.append_empty]⟩

/-- A suffix-free mlatrack URL has the slug-plus-suffix shape with the
empty suffix. -/
theorem mlatrack_shape (slug : String) :
    ∃ s suffix, suffix ∈ numericSuffixes ∧ mlatrackURL slug = mlatrackURL (s ++ suffix) :=
  ⟨slug, "", by simp [numericSuffixes], by rw [String.append_empty]⟩

/-- Every priority group is a filter of the candidate list. -/
theorem priorityGroups_sub (urls : List String) (ty : Role) :
    ∀ g ∈ priorityGroups urls ty, ∀ u ∈ g, u ∈ urls := by
  intro g hg u hu
  cases ty with
  | MP =>
    simp only [priorityGroups, List.mem_cons, List.not_mem_nil, or_false] at hg
    rcases hg with rfl | rfl | rfl | rfl | rfl | rfl <;> exact (List.mem_filter.mp hu).1
  | MLA =>
    simp only [priorityGroups, List.mem_cons, List.not_mem_nil, or_false] at hg
    rcases hg with rfl | rfl <;> exact (List.mem_filter.mp hu).1

/-- A member of the j-th group is a candidate URL. -/
theorem mem_priorityGroups_getD {urls : List String} {ty : Role} {j : Nat} {u : String}
    (h : u ∈ (priorityGroups urls ty).getD j []) : u ∈ urls := by
  rcases Nat.lt_or_ge j (priorityGroups urls ty).length with hj | hj
  · have hmem : (priorityGroups urls ty).getD j [] ∈ priorityGroups urls ty := by
      rw [List.getD_eq_getElem _ _ hj]
      exact List.getElem_mem hj
    exact priorityGroups_sub urls ty _ hmem u h
  · rw [List.getD_eq_default _ _ hj] at h
    cases h

/-- The first satisfying element of a find? is the lowest-index one. -/
theorem find?_first_index (l : List String) (p : String → Bool) (u : String)
    (h : l.find? p = some u) :
    ∃ k, k < l.length ∧ l.getD k "" = u ∧ p u = true ∧
      ∀ m, m < k → p (l.getD m "") = false := by
  induction l with
  | nil => simp at h
  | cons a t ih =>
    cases ha : p a with
    | true =>
      rw [List.find?_cons_of_pos _ ha] at h
      injection h with h'
      subst h'
      exact ⟨0, by simp, rfl, ha, fun m hm => by omega⟩
    | false =>
      rw [List.find?_cons_of_neg _ (by simp [ha])] at h
      obtain ⟨k, hk, hget, hp, hlow⟩ := ih h
      refine ⟨k + 1, by simpa using hk, by simpa using hget, hp, ?_⟩
      intro m hm
      match m with
      | 0 => simpa using ha
      | m + 1 =>
        rw [List.getD_cons_succ]
        exact hlow m (by omega)

/-- The tier loop on a group list whose first resolvable tier is tier i:
the result is the first resolvable URL of tier i, and exactly the URLs of
tiers up to i are probed. -/
theorem runGroups_hit (env : Env) (ty : Role) (gs : List (List String)) (i : Nat)
    (hprev : ∀ j, j < i → ∀ u ∈ gs.getD j [], resolves env ty u = false)
    (hhit : ∃ u ∈ gs.getD i [], resolves env ty u = true) :
    runGroups env ty gs =
      ((gs.getD i []).find? (fun u => resolves env ty u), (gs.take (i + 1)).flatten) := by
  induction gs generalizing i with
  | nil =>
    obtain ⟨u, hu, -⟩ := hhit
    simp at hu
  | cons g rest ih =>
    match i with
    | 0 =>
      obtain ⟨u, hu, hres⟩ := hhit
      simp only [List.getD_cons_zero] at hu ⊢
      have hfind : (g.find? (fun u => resolves env ty u)).isSome := by
        rw [List.find?_isSome]
        exact ⟨u, hu, hres⟩
      obtain ⟨v, hv⟩ := Option.isSome_iff_exists.mp hfind
      simp [runGroups, hv]
    | i + 1 =>
      have hg : ∀ u ∈ g, resolves env ty u = false := by
        have := hprev 0 (by omega)
        simpa using this
      have hfind : g.find? (fun u => resolves env ty u) = none := by
        rw [List.find?_eq_none]
        intro x hx
        simp [hg x hx]
      have hrec := ih i
        (fun j hj => by simpa using hprev (j + 1) (by omega))
        (by simpa using hhit)
      simp only [runGroups, hfind, hrec]
      simp [List.take_succ_cons]

/-- The tier loop with no resolvable URL anywhere yields no hit and probes
every tier. -/
theorem runGroups_none (env : Env) (ty : Role) (gs : List (List String))
    (h : ∀ u, resolves env ty u = false) :
    (runGroups env ty gs).1 = none := by
  induction gs with
  | nil => simp [runGroups]
  | cons g rest ih =>
    have hfind : g.find? (fun u => resolves env ty u) = none := by
      rw [List.find?_eq_none]
      intro x _
      simp [h x]
    simp [runGroups, hfind, ih]

/-- A total-miss schedule returns the empty response shape. -/
theorem schedule_all_miss (env : Env) (ty : Role) (urls : List String)
    (h : ∀ u, resolves env ty u = false) :
    (schedule env ty urls).found = false ∧
    (schedule env ty urls).data = getEmptyResponseData ∧
    (schedule env ty urls).sourceUrl = none ∧
    (schedule env ty urls).checkedUrls = none ∧
    (schedule env ty urls).totalUrls = none := by
  have hnone := runGroups_none env ty (priorityGroups urls ty) h
  unfold schedule
  rcases hEq : runGroups env ty (priorityGroups urls ty) with ⟨o, probed⟩
  rw [hEq] at hnone
  simp only at hnone
  subst hnone
  split
  · simp [getEmptyResponse]
  · simp [getEmptyResponse]

/-! ## Claims -/

/-- Claim C1: for every candidate-URL list and every role, when the tier
loop's first tier containing a resolvable probe (a URL whose fetched
document validates and whose parsed name is neither empty nor the Unknown
sentinel) is tier i, the scheduler returns that tier's lowest-index
resolvable hit, and exactly the URLs of tiers up to i are handed to the
fetcher — no URL of any later tier is ever probed. -/
theorem claim1_scheduler_tier_hit (env : Env) (ty : Role) (urls : List String) (i : Nat)
    (hprev : ∀ j, j < i → ∀ u ∈ (priorityGroups urls ty).getD j [], resolves env ty u = false)
    (hhit : ∃ u ∈ (priorityGroups urls ty).getD i [], resolves env ty u = true) :
    (schedule env ty urls).found = true ∧
    (schedule env ty urls).sourceUrl =
      ((priorityGroups urls ty).getD i []).find? (fun u => resolves env ty u) ∧
    (∃ k, k < ((priorityGroups urls ty).getD i []).length ∧
      (schedule env ty urls).sourceUrl = some (((priorityGroups urls ty).getD i []).getD k "") ∧
      resolves env ty (((priorityGroups urls ty).getD i []).getD k "") = true ∧
      ∀ m, m < k → resolves env ty (((priorityGroups urls ty).getD i []).getD m "") = false) ∧
    (schedule env ty urls).probed = ((priorityGroups urls ty).take (i + 1)).flatten := by
  have hrun := runGroups_hit env ty (priorityGroups urls ty) i hprev hhit
  obtain ⟨u0, hu0, hres0⟩ := hhit
  have hne : urls.isEmpty = false := by
    have hu : u0 ∈ urls := mem_priorityGroups_getD hu0
    cases urls with
    | nil => cases hu
    | cons a t => rfl
  have hfindSome : (((priorityGroups urls ty).getD i []).find? (fun u => resolves env ty u)).isSome := by
    rw [List.find?_isSome]
    exact ⟨u0, hu0, hres0⟩
  obtain ⟨v, hv⟩ := Option.isSome_iff_exists.mp hfindSome
  have hrw : schedule env ty urls =
      { found := true
        data := env.parseToFlat ty ((probeHit env ty v).getD "")
        sourceUrl := some v
        checkedUrls := some ((priorityGroups urls ty).take (i + 1)).flatten.length
        totalUrls := some urls.length
        probed := ((priorityGroups urls ty).take (i + 1)).flatten } := by
    unfold schedule
    rw [hrun, hv]
    simp [hne]
  obtain ⟨k, hk, hgetk, hpk, hlow⟩ := find?_first_index _ _ _ hv
  refine ⟨by rw [hrw], by rw [hrw]; exact hv.symm, ⟨k, hk, ?_, ?_, hlow⟩, by rw [hrw]⟩
  · rw [hrw, hgetk]
  · rw [hgetk]
    exact hpk

/-- Witness for C1: two MLA candidates, the suffix-free tier misses and
the suffixed tier hits, so the hit of tier 1 is returned and both tiers
were probed. -/
theorem claim1_scheduler_tier_hit_witness :
    (schedule tierEnv Role.MLA ["https://x/u", "https://x/u-1"]).found = true ∧
    (schedule tierEnv Role.MLA ["https://x/u", "https://x/u-1"]).sourceUrl =
      some "https://x/u-1" ∧
    (schedule tierEnv Role.MLA ["https://x/u", "https://x/u-1"]).probed =
      ["https://x/u", "https://x/u-1"] := by
  have h := claim1_scheduler_tier_hit tierEnv Role.MLA ["https://x/u", "https://x/u-1"] 1
    (by
      intro j hj
      have hj0 : j = 0 := by omega
      subst hj0
      decide)
    ⟨"https://x/u-1", by decide, by decide⟩
  exact ⟨h.1, h.2.1.trans (by decide), h.2.2.2.trans (by decide)⟩

/-- Claim C2, counterexample: the membership key is present on the MP
found path but absent from the not-found object, and the not-found object
holds the string N-slash-A, not Unknown, in the identity field state; so
the key set is not the same on every outcome path. -/
theorem claim2_keys_counterexample :
    "membership" ∈ (parseMPData mpExtract0 perfSel0).map Prod.fst ∧
    "membership" ∉ getEmptyResponseData.map Prod.fst ∧
    lookupKey getEmptyResponseData "state" = "N/A" := by decide

/-- Claim C2, amended: each outcome path has a fixed key list; the
not-found key set is a subset of both found paths, the MP path adds
exactly noOfTerm and membership, the MLA path adds exactly membership and
note; and on the not-found path only name holds Unknown while the other
identity fields hold the N-slash-A sentinel. -/
theorem claim2_amended_key_sets :
    (∀ e p, (parseMPData e p).map Prod.fst = mpProfileKeys) ∧
    (∀ e b, (parseMLAData e b).map Prod.fst = mlaProfileKeys) ∧
    getEmptyResponseData.map Prod.fst = emptyProfileKeys ∧
    emptyProfileKeys.all (fun k => mpProfileKeys.contains k) = true ∧
    mpProfileKeys.all
      (fun k => emptyProfileKeys.contains k || k == "noOfTerm" || k == "membership") = true ∧
    emptyProfileKeys.all (fun k => mlaProfileKeys.contains k) = true ∧
    mlaProfileKeys.all
      (fun k => emptyProfileKeys.contains k || k == "membership" || k == "note") = true ∧
    lookupKey getEmptyResponseData "name" = "Unknown" ∧
    lookupKey getEmptyResponseData "state" = "N/A" ∧
    lookupKey getEmptyResponseData "constituency" = "N/A" ∧
    lookupKey getEmptyResponseData "party" = "N/A" ∧
    lookupKey getEmptyResponseData "termStart" = "N/A" ∧
    lookupKey getEmptyResponseData "attendance" = "N/A" ∧
    lookupKey getEmptyResponseData "attendanceTable" = "" := by
  refine ⟨fun e p => rfl, fun e b => rfl, ?_, ?_, ?_, ?_, ?_, ?_, ?_, ?_, ?_, ?_, ?_, ?_⟩ <;>
    decide

/-- Claim C3: the alternate role runs only after the requested role's
pipeline found nothing — on a primary hit the result is the primary result
with both role fields set to the requested role and no further URL is
probed — and when only the alternate pass hits, the result is found with
searchedAs the requested role and foundAs the alternate role. -/
theorem claim3_role_fallback :
    (∀ env name ty, (tryFetchWithType env name ty false).found = true →
      getPRSData env name ty =
        { tryFetchWithType env name ty false with searchedAs := some ty, foundAs := some ty }) ∧
    (∀ env name ty, (tryFetchWithType env name ty false).found = false →
      (tryFetchWithType env name (altRole ty) true).found = true →
      (getPRSData env name ty).found = true ∧
      (getPRSData env name ty).searchedAs = some ty ∧
      (getPRSData env name ty).foundAs = some (altRole ty) ∧
      (getPRSData env name ty).probed =
        (tryFetchWithType env name ty false).probed ++
          (tryFetchWithType env name (altRole ty) true).probed) := by
  constructor
  · intro env name ty h
    unfold getPRSData
    simp [h]
  · intro env name ty h1 h2
    unfold getPRSData
    simp [h1, h2]

/-- Claim C4, counterexample: the inputs a-b-c and dollar-xy-dollar both
yield two slug candidates, yet the MP builder emits 24 URLs for the first
and 15 for the second, so the candidate count is not a function of the
slug-candidate count and the role. -/
theorem claim4_count_counterexample :
    (slugCandidates "a b c").length = 2 ∧
    (slugCandidates "$ xy $").length = 2 ∧
    (constructURLs "a b c" Role.MP false).length = 24 ∧
    (constructURLs "$ xy $" Role.MP false).length = 15 ∧
    (constructURLs "a b c" Role.MP false).length ≠
      (constructURLs "$ xy $" Role.MP false).length := by decide

/-- Claim C4, amended: every MP candidate has the mptrack shape with a
session among the three configured ones and a suffix among the four
configured ones, every configured session does appear, and every MLA
candidate has the sessionless mlatrack shape; the total count, however, is
a function of the name (the variation slugs contribute session-by-suffix
or suffix-free blocks and deduplication can merge them), not of the
slug-candidate count alone. -/
theorem claim4_amended_url_shapes :
    (∀ name reduced u, u ∈ constructURLs name Role.MP reduced →
      ∃ sabha slug suffix, sabha ∈ lokSabhas ∧ suffix ∈ numericSuffixes ∧
        u = mptrackURL sabha (slug ++ suffix)) ∧
    (∀ name reduced sabha, sabha ∈ lokSabhas →
      mptrackURL sabha (nameSlugOf name) ∈ constructURLs name Role.MP reduced) ∧
    (∀ name reduced u, u ∈ constructURLs name Role.MLA reduced →
      ∃ slug suffix, suffix ∈ numericSuffixes ∧ u = mlatrackURL (slug ++ suffix)) := by
  refine ⟨?_, ?_, ?_⟩
  · intro name reduced u hu
    have hu' : u ∈ rawMPURLs name reduced := mem_dedupFirst.mp hu
    simp only [rawMPURLs] at hu'
    cases reduced with
    | true =>
      simp only [if_true] at hu'
      obtain ⟨sabha, suffix, hs, hsuf, rfl⟩ := mem_mpCross hu'
      exact ⟨sabha, _, suffix, hs, hsuf, rfl⟩
    | false =>
      simp only [Bool.false_eq_true, if_false, List.mem_append] at hu'
      rcases hu' with h | h | h
      · obtain ⟨sabha, suffix, hs, hsuf, rfl⟩ := mem_mpCross h
        exact ⟨sabha, _, suffix, hs, hsuf, rfl⟩
      · split at h
        · obtain ⟨sabha, suffix, hs, hsuf, rfl⟩ := mem_mpCross h
          exact ⟨sabha, _, suffix, hs, hsuf, rfl⟩
        · cases h
      · split at h
        · rcases List.mem_append.mp h with h2 | h2
          · split at h2
            · obtain ⟨sabha, suffix, hs, hsuf, rfl⟩ := mem_mpBare h2
              exact ⟨sabha, _, suffix, hs, hsuf, rfl⟩
            · cases h2
          · split at h2
            · split at h2
              · obtain ⟨sabha, suffix, hs, hsuf, rfl⟩ := mem_mpBare h2
                exact ⟨sabha, _, suffix, hs, hsuf, rfl⟩
              · cases h2
            · cases h2
        · cases h
  · intro name reduced sabha hs
    have hbase : mptrackURL sabha (nameSlugOf name) ∈ rawMPURLs name reduced := by
      simp only [rawMPURLs]
      cases reduced with
      | true => simpa using mpCross_mem_base (nameSlugOf name) sabha hs
      | false =>
        simp only [Bool.false_eq_true, if_false, List.mem_append]
        exact Or.inl (mpCross_mem_base (nameSlugOf name) sabha hs)
    exact mem_dedupFirst.mpr hbase
  · intro name reduced u hu
    have hu' : u ∈ rawMLAURLs name reduced := mem_dedupFirst.mp hu
    simp only [rawMLAURLs] at hu'
    cases reduced with
    | true =>
      simp only [if_true] at hu'
      obtain ⟨suffix, hsuf, rfl⟩ := mem_mlaCross hu'
      exact ⟨_, suffix, hsuf, rfl⟩
    | false =>
      simp only [Bool.false_eq_true, if_false, List.mem_append] at hu'
      rcases hu' with h | h | h
      · obtain ⟨suffix, hsuf, rfl⟩ := mem_mlaCross h
        exact ⟨_, suffix, hsuf, rfl⟩
      · split at h
        · obtain ⟨suffix, hsuf, rfl⟩ := mem_mlaCross h
          exact ⟨_, suffix, hsuf, rfl⟩
        · cases h
      · split at h
        · split at h
          · have h' := List.mem_singleton.mp h
            subst h'
            exact mlatrack_shape _
          · cases h
        · cases h

/-- Claim C5: the part_000 Name Normalizer strips the honorific, so the
name Dr. Rahul Gandhi yields the single primary slug rahul-gandhi and the
MP candidate list contains the 18th-Lok-Sabha URL for that slug. -/
theorem claim5_honorific_slug :
    P0.generateNameSlugs "Dr. Rahul Gandhi" = ["rahul-gandhi"] ∧
    "https://prsindia.org/mptrack/18th-lok-sabha/rahul-gandhi" ∈
      P0.constructURLs "Dr. Rahul Gandhi" Role.MP false := by decide

/-- Claim C6, counterexample: the optimized builder of prsService.js with
reduced true still emits 12 MP candidates, among them a 17th-Lok-Sabha
URL, so the reduced pass is neither capped at five nor restricted to the
newest session there. -/
theorem claim6_reduced_counterexample :
    ¬ ((constructURLs "a" Role.MP true).length ≤ 5) ∧
    "https://prsindia.org/mptrack/17th-lok-sabha/a" ∈ constructURLs "a" Role.MP true := by
  decide

/-- Claim C6, amended: in the part_000 builder the reduced pass is capped
at five candidates for either role, and its MP candidates all belong to
the newest session; the optimized builder's reduced flag only omits the
name-variation slugs and keeps all three sessions. -/
theorem claim6_amended_reduced :
    (∀ name ty, (P0.constructURLs name ty true).length ≤ 5) ∧
    (∀ name u, u ∈ P0.constructURLs name Role.MP true →
      ∃ slug, u = mptrackURL "18th-lok-sabha" slug) := by
  constructor
  · intro name ty
    unfold P0.constructURLs
    cases ty <;>
      simp only [if_true] <;>
      rw [List.length_take] <;>
      exact min_le_left _ _
  · intro name u hu
    unfold P0.constructURLs at hu
    simp only [if_true] at hu
    have hu' := List.take_subset _ _ hu
    simp only [List.mem_append, List.mem_flatMap, List.mem_map, List.mem_singleton,
      List.not_mem_nil, or_false] at hu'
    obtain ⟨session, hsession, slug, hslug, rfl⟩ := hu'
    subst hsession
    exact ⟨slug, rfl⟩

/-- Claim C7, counterexample: on a document offering nothing to any
strategy, the own and national PMB default to the string zero but the
state PMB defaults to the N-slash-A sentinel, so not all three PMB fields
are set to zero. -/
theorem claim7_statepmb_counterexample :
    ¬ ((extractParliamentaryPerformance perfSel0).pmb = "0" ∧
       (extractParliamentaryPerformance perfSel0).natPMB = "0" ∧
       (extractParliamentaryPerformance perfSel0).statePMB = "0") := by decide

/-- Claim C7, amended: when no extraction strategy yields any value, the
own and national PMB fields are the string zero, while the state PMB and
every non-PMB metric are the N-slash-A sentinel. -/
theorem claim7_amended_defaults (d : PerfSelectors) (h : noPerfData d = true) :
    extractParliamentaryPerformance d = allDefaultMetrics := by
  obtain ⟨a1, a2, a3, a4, a5, a6, a7, a8, a9, a10, a11, a12, l1, l2, l3, l4, l5⟩ := d
  simp only [noPerfData, Bool.and_eq_true, beq_iff_eq, List.isEmpty_iff, and_assoc] at h
  obtain ⟨h1, h2, h3, h4, h5, h6, h7, h8, h9, h10, h11, h12, h13, h14, h15, h16, h17⟩ := h
  subst h1 h2 h3 h4 h5 h6 h7 h8 h9 h10 h11 h12 h13 h14 h15 h16 h17
  rfl

/-- Witness for C7's amended claim at the all-empty document. -/
theorem claim7_amended_defaults_witness :
    extractParliamentaryPerformance perfSel0 = allDefaultMetrics :=
  claim7_amended_defaults perfSel0 (by decide)

/-- Claim C8, counterexample: on the empty name the MP builder still
emits 12 candidates, so the builder does not return an empty list for an
empty or whitespace-only name. -/
theorem claim8_empty_name_counterexample :
    (constructURLs "" Role.MP false).length = 12 ∧
    ¬ (constructURLs "" Role.MP false = []) := by decide

/-- Claim C8, amended: the builder produces at least one candidate for
every input name, role and budget — it never returns an empty list, not
even for an empty or whitespace-only name. -/
theorem claim8_amended_nonempty (name : String) (ty : Role) (reduced : Bool) :
    0 < (constructURLs name ty reduced).length := by
  have hmem : ∃ u, u ∈ constructURLs name ty reduced := by
    cases ty with
    | MP =>
      refine ⟨mptrackURL "18th-lok-sabha" (nameSlugOf name), mem_dedupFirst.mpr ?_⟩
      simp only [rawMPURLs]
      cases reduced with
      | true => simpa using mpCross_mem_base (nameSlugOf name) _ (by simp [lokSabhas])
      | false =>
        simp only [Bool.false_eq_true, if_false, List.mem_append]
        exact Or.inl (mpCross_mem_base (nameSlugOf name) _ (by simp [lokSabhas]))
    | MLA =>
      refine ⟨mlatrackURL (nameSlugOf name), mem_dedupFirst.mpr ?_⟩
      simp only [rawMLAURLs]
      cases reduced with
      | true => simpa using mlaCross_mem_base (nameSlugOf name)
      | false =>
        simp only [Bool.false_eq_true, if_false, List.mem_append]
        exact Or.inl (mlaCross_mem_base (nameSlugOf name))
  obtain ⟨u, hu⟩ := hmem
  exact List.length_pos.mpr (List.ne_nil_of_mem hu)

/-- Claim C9, counterexample: when every probe of both roles misses, the
resolver's result is the not-found object of getEmptyResponse, which
carries no probed-URL count — checkedUrls is absent, against the claim
that the not-found result includes one. -/
theorem claim9_no_count_counterexample :
    (getPRSData noneEnv "ab" Role.MLA).found = false ∧
    (getPRSData noneEnv "ab" Role.MLA).checkedUrls = none ∧
    (getPRSData noneEnv "ab" Role.MLA).data = getEmptyResponseData := by decide

/-- Claim C9, amended: when no candidate of either role resolves, the
resolver returns the structured not-found result — found false with the
all-sentinel profile and no source URL — rather than raising; the
checked/total URL counts are attached only to success results, so the
not-found result carries none. -/
theorem claim9_amended_total_miss (env : Env) (name : String) (ty : Role)
    (h : ∀ t u, resolves env t u = false) :
    (getPRSData env name ty).found = false ∧
    (getPRSData env name ty).data = getEmptyResponseData ∧
    (getPRSData env name ty).sourceUrl = none ∧
    (getPRSData env name ty).checkedUrls = none ∧
    (getPRSData env name ty).totalUrls = none := by
  have h1 := schedule_all_miss env ty (constructURLs name ty false) (h ty)
  have h2 :=
    schedule_all_miss env (altRole ty) (constructURLs name (altRole ty) true) (h (altRole ty))
  unfold getPRSData tryFetchWithType
  simp [h1.1, h2.1, getEmptyResponse]

/-- Witness for C9's amended claim in the environment where every fetch
fails. -/
theorem claim9_amended_total_miss_witness :
    (getPRSData noneEnv "ab" Role.MP).found = false ∧
    (getPRSData noneEnv "ab" Role.MP).data = getEmptyResponseData ∧
    (getPRSData noneEnv "ab" Role.MP).sourceUrl = none ∧
    (getPRSData noneEnv "ab" Role.MP).checkedUrls = none ∧
    (getPRSData noneEnv "ab" Role.MP).totalUrls = none :=
  claim9_amended_total_miss noneEnv "ab" Role.MP (fun _ _ => rfl)

/-- Claim C10: for every validated MLA document, whatever its content, all
twelve performance metrics are the N-slash-A sentinel, the three activity
tables are empty strings, and the note is Data-not-available exactly when
the centered heading carries that banner and the affidavit provenance note
otherwise — the MLA path never reads the metric or table selectors. -/
theorem claim10_mla_constant_fields (doc : Document) :
    lookupKey (parseToFlatFormat doc Role.MLA) "attendance" = "N/A" ∧
    lookupKey (parseToFlatFormat doc Role.MLA) "natAttendance" = "N/A" ∧
    lookupKey (parseToFlatFormat doc Role.MLA) "stateAttendance" = "N/A" ∧
    lookupKey (parseToFlatFormat doc Role.MLA) "debates" = "N/A" ∧
    lookupKey (parseToFlatFormat doc Role.MLA) "natDebates" = "N/A" ∧
    lookupKey (parseToFlatFormat doc Role.MLA) "stateDebates" = "N/A" ∧
    lookupKey (parseToFlatFormat doc Role.MLA) "questions" = "N/A" ∧
    lookupKey (parseToFlatFormat doc Role.MLA) "natQuestions" = "N/A" ∧
    lookupKey (parseToFlatFormat doc Role.MLA) "stateQuestions" = "N/A" ∧
    lookupKey (parseToFlatFormat doc Role.MLA) "pmb" = "N/A" ∧
    lookupKey (parseToFlatFormat doc Role.MLA) "natPMB" = "N/A" ∧
    lookupKey (parseToFlatFormat doc Role.MLA) "statePMB" = "N/A" ∧
    lookupKey (parseToFlatFormat doc Role.MLA) "attendanceTable" = "" ∧
    lookupKey (parseToFlatFormat doc Role.MLA) "debatesTable" = "" ∧
    lookupKey (parseToFlatFormat doc Role.MLA) "questionsTable" = "" ∧
    lookupKey (parseToFlatFormat doc Role.MLA) "note" =
      (if containsStr doc.textCenterH3 "Data not available" then "Data not available"
       else "Member data is taken from the election affidavits") :=
  ⟨rfl, rfl, rfl, rfl, rfl, rfl, rfl, rfl, rfl, rfl, rfl, rfl, rfl, rfl, rfl, rfl⟩

end PRS
